import Mathlib

/-!
Verification of the `aiohttp_jinja2.helpers` module: the template helper
functions `url_for` and `static_url`.

The embedding models Python values that can appear as keyword arguments
(`PyVal`), the router as an external function, the application
configuration as two optional entries (the `static_root_key` AppKey entry
and the legacy string key), and errors as explicit result constructors.
-/

/-- A Python value as it can arrive in the `parts` keyword arguments of
`url_for`.  `str s exactStr` is a Python `str` instance; `exactStr = false`
marks an instance of a proper subclass of `str`.  `int n` is a value whose
type is exactly `int`.  `bool b` is a Python `bool` (a subclass of `int`).
`other tyName reprStr` is any other value, carrying its type name and repr. -/
inductive PyVal where
  | str (s : String) (exactStr : Bool)
  | int (n : Int)
  | bool (b : Bool)
  | other (tyName : String) (reprStr : String)
deriving DecidableEq

/-- Python `isinstance(val, str)`: true for `str` and its subclasses. -/
def isinstance_str : PyVal → Bool
  | .str _ _ => true
  | _ => false

/-- Python `type(val) is int`: true only when the type is exactly `int`;
in particular false for `bool` although `bool` subclasses `int`. -/
def type_is_int : PyVal → Bool
  | .int _ => true
  | _ => false

/-- The character content produced by Python `str(val)`. -/
def pyStrOf : PyVal → String
  | .str s _ => s
  | .int n => toString n
  | .bool b => if b then "True" else "False"
  | .other _ r => r

/-- Python `str(val)`: always returns a plain `str` (exactStr = true),
with the content given by `pyStrOf`. -/
def pyStr (v : PyVal) : PyVal := PyVal.str (pyStrOf v) true

/-- The exceptions the helpers can raise. -/
inductive PyErr where
  | typeError (msg : String)
  | runtimeError (msg : String)
deriving DecidableEq

/-- The message built for the TypeError in `url_for`
("argument value should be str or int, got key -> [type] repr"). -/
def typeErrorMsg (key : String) (v : PyVal) : String :=
  "argument value should be str or int, got " ++ key ++ " of value " ++ pyStrOf v

/-- One iteration of the validation loop in `url_for`:
`isinstance(val, str)` or `type(val) is int` coerce with `str(val)`,
anything else raises a TypeError. -/
def cleanVal (key : String) (val : PyVal) : Except PyErr PyVal :=
  if isinstance_str val then Except.ok (pyStr val)
  else if type_is_int val then Except.ok (pyStr val)
  else Except.error (PyErr.typeError (typeErrorMsg key val))

/-- The whole validation loop building `parts_clean`, stopping at the
first invalid value (Python raises inside the `for` loop). -/
def cleanParts : List (String × PyVal) → Except PyErr (List (String × PyVal))
  | [] => Except.ok []
  | (k, v) :: rest =>
    match cleanVal k v with
    | Except.error e => Except.error e
    | Except.ok v2 =>
      match cleanParts rest with
      | Except.error e => Except.error e
      | Except.ok rest2 => Except.ok ((k, v2) :: rest2)

/-- A resolved URL: the route-resolved part plus an optional query
mapping (`yarl.URL.with_query` replaces the query). -/
structure Url where
  resolved : String
  query : Option (List (String × String))
deriving DecidableEq

/-- `yarl.URL.with_query`: attach the query mapping to the URL. -/
def Url.with_query (u : Url) (q : List (String × String)) : Url :=
  Url.mk u.resolved (some q)

/-- The externally owned router: `app.router[name].url_for(**parts_clean)`. -/
def Router := String → List (String × PyVal) → Url

/-- `url_for(context, route_name, query_=None, **parts)`: validate and
stringify the parts, resolve the named route through the router, and if
`query_` is truthy (a non-empty mapping) attach it with `with_query`. -/
def url_for (router : Router) (routeName : String)
    (query_ : Option (List (String × String)))
    (parts : List (String × PyVal)) : Except PyErr Url :=
  match cleanParts parts with
  | Except.error e => Except.error e
  | Except.ok parts_clean =>
    let url := router routeName parts_clean
    match query_ with
    | some q => if q.isEmpty then Except.ok url else Except.ok (url.with_query q)
    | none => Except.ok url

/-- Python `s.lstrip("/")`: drop every leading slash. -/
def pyLstripSlash (s : String) : String :=
  String.mk (s.data.dropWhile (fun c => c == '/'))

/-- Python `s.rstrip("/")`: drop every trailing slash. -/
def pyRstripSlash (s : String) : String :=
  String.mk ((s.data.reverse.dropWhile (fun c => c == '/')).reverse)

/-- The join in `static_url`:
`"{}/{}".format(static_url.rstrip("/"), static_file_path.lstrip("/"))`. -/
def joinStatic (root path : String) : String :=
  pyRstripSlash root ++ "/" ++ pyLstripSlash path

/-- The application configuration entries that `static_url` reads:
the `static_root_key` AppKey entry and the legacy string key. -/
structure App where
  static_root_key_entry : Option String
  static_root_url_entry : Option String
deriving DecidableEq

/-- Result of `static_url`: either the joined URL (with a flag recording
whether the DeprecationWarning was emitted) or the RuntimeError. -/
inductive StaticResult where
  | ok (url : String) (deprecationWarning : Bool)
  | runtimeError (msg : String)
deriving DecidableEq

/-- The RuntimeError message for a missing static root configuration. -/
def staticRootMissingMsg : String :=
  "app does not define a static root url, you need to set the url root with the static_root_key entry"

/-- The DeprecationWarning message for the legacy configuration key. -/
def deprecationMsg : String :=
  "static_root_url is deprecated, use aiohttp_jinja2.static_root_key"

/-- `static_url(context, static_file_path)`: read the configured root
from `app[static_root_key]`, fall back to the legacy `app` entry with a
DeprecationWarning, raise a RuntimeError when neither exists, and
otherwise join root and path with exactly one slash. -/
def static_url (app : App) (static_file_path : String) : StaticResult :=
  match app.static_root_key_entry with
  | some root => StaticResult.ok (joinStatic root static_file_path) false
  | none =>
    match app.static_root_url_entry with
    | some root => StaticResult.ok (joinStatic root static_file_path) true
    | none => StaticResult.runtimeError staticRootMissingMsg

/-- The mutable world visible to the helpers: the app (with its
configuration entries), the router, and the warning channel. -/
structure World where
  app : App
  router : Router
  warningsEmitted : List String

/-- `warnings.warn(...)` for the deprecated key: appends to the warning
channel and touches nothing else. -/
def warnDeprecated (w : World) : World :=
  World.mk w.app w.router (w.warningsEmitted ++ [deprecationMsg])

/-- State-passing form of `static_url`: each configuration read leaves the
world unchanged; only the deprecation warning appends to the warning
channel. -/
def static_urlRun (w : World) (static_file_path : String) : StaticResult × World :=
  match w.app.static_root_key_entry with
  | some root => (StaticResult.ok (joinStatic root static_file_path) false, w)
  | none =>
    match w.app.static_root_url_entry with
    | some root =>
      (StaticResult.ok (joinStatic root static_file_path) true, warnDeprecated w)
    | none => (StaticResult.runtimeError staticRootMissingMsg, w)

/-- State-passing form of `url_for`: its body only reads the router from
the world, so the world comes back unchanged. -/
def url_forRun (w : World) (routeName : String)
    (query_ : Option (List (String × String)))
    (parts : List (String × PyVal)) : Except PyErr Url × World :=
  (url_for w.router routeName query_ parts, w)

/-- The stringified parameter map that `url_for` hands to the router. -/
def stringifiedParts (parts : List (String × PyVal)) : List (String × PyVal) :=
  parts.map (fun kv => (kv.1, pyStr kv.2))

/-! ### Helper lemmas: the validation loop -/

theorem cleanVal_ok_of_valid (k : String) (v : PyVal)
    (h : isinstance_str v = true ∨ type_is_int v = true) :
    cleanVal k v = Except.ok (pyStr v) := by
  rcases h with h | h
  · simp [cleanVal, h]
  · cases hs : isinstance_str v <;> simp [cleanVal, hs, h]

theorem cleanVal_error_of_invalid (k : String) (v : PyVal)
    (h1 : isinstance_str v = false) (h2 : type_is_int v = false) :
    cleanVal k v = Except.error (PyErr.typeError (typeErrorMsg k v)) := by
  simp [cleanVal, h1, h2]

theorem cleanParts_ok_of_valid (parts : List (String × PyVal))
    (h : ∀ kv ∈ parts, isinstance_str kv.2 = true ∨ type_is_int kv.2 = true) :
    cleanParts parts = Except.ok (stringifiedParts parts) := by
  induction parts with
  | nil => rfl
  | cons kv rest ih =>
    obtain ⟨k, v⟩ := kv
    have hv := h (k, v) (List.mem_cons_self _ _)
    have hrest := ih (fun x hx => h x (List.mem_cons_of_mem _ hx))
    simp [cleanParts, cleanVal_ok_of_valid k v hv, hrest, stringifiedParts]

theorem cleanParts_shape (parts : List (String × PyVal)) :
    (∃ l, cleanParts parts = Except.ok l) ∨
    (∃ msg, cleanParts parts = Except.error (PyErr.typeError msg)) := by
  induction parts with
  | nil => exact Or.inl ⟨[], rfl⟩
  | cons kv rest ih =>
    obtain ⟨k, v⟩ := kv
    by_cases hv : isinstance_str v = true ∨ type_is_int v = true
    · rcases ih with ⟨l, hl⟩ | ⟨msg, hm⟩
      · exact Or.inl ⟨(k, pyStr v) :: l,
          by simp [cleanParts, cleanVal_ok_of_valid k v hv, hl]⟩
      · exact Or.inr ⟨msg, by simp [cleanParts, cleanVal_ok_of_valid k v hv, hm]⟩
    · push_neg at hv
      simp only [Bool.not_eq_true] at hv
      exact Or.inr ⟨typeErrorMsg k v,
        by simp [cleanParts, cleanVal_error_of_invalid k v hv.1 hv.2]⟩

theorem cleanParts_error_iff (parts : List (String × PyVal)) :
    (∃ e, cleanParts parts = Except.error e) ↔
    (∃ kv ∈ parts, isinstance_str kv.2 = false ∧ type_is_int kv.2 = false) := by
  induction parts with
  | nil => simp [cleanParts]
  | cons kv rest ih =>
    obtain ⟨k, v⟩ := kv
    by_cases hv : isinstance_str v = true ∨ type_is_int v = true
    · cases hrest : cleanParts rest with
      | ok l =>
        constructor
        · rintro ⟨e, he⟩
          simp [cleanParts, cleanVal_ok_of_valid k v hv, hrest] at he
        · rintro ⟨kv2, hmem, hbad⟩
          rcases List.mem_cons.mp hmem with heq | hmem2
          · rcases hv with h | h <;> rw [heq] at hbad <;>
              simp [h] at hbad
          · have hex : ∃ e, cleanParts rest = Except.error e :=
              ih.mpr ⟨kv2, hmem2, hbad⟩
            rcases hex with ⟨e, he⟩
            rw [hrest] at he
            cases he
      | error e =>
        constructor
        · intro _
          obtain ⟨kv2, hmem2, hbad⟩ := ih.mp ⟨e, hrest⟩
          exact ⟨kv2, List.mem_cons_of_mem _ hmem2, hbad⟩
        · intro _
          exact ⟨e, by simp [cleanParts, cleanVal_ok_of_valid k v hv, hrest]⟩
    · push_neg at hv
      simp only [Bool.not_eq_true] at hv
      constructor
      · intro _
        exact ⟨(k, v), List.mem_cons_self _ _, hv.1, hv.2⟩
      · intro _
        exact ⟨PyErr.typeError (typeErrorMsg k v),
          by simp [cleanParts, cleanVal_error_of_invalid k v hv.1 hv.2]⟩

theorem cleanParts_error_typeError (parts : List (String × PyVal)) (e : PyErr)
    (h : cleanParts parts = Except.error e) : ∃ msg, e = PyErr.typeError msg := by
  rcases cleanParts_shape parts with ⟨l, hl⟩ | ⟨msg, hm⟩
  · rw [hl] at h
    cases h
  · rw [hm] at h
    injection h with h2
    exact ⟨msg, h2.symm⟩

/-! ### Helper lemmas: url_for -/

theorem url_for_ok_none (router : Router) (n : String) (parts : List (String × PyVal))
    (h : ∀ kv ∈ parts, isinstance_str kv.2 = true ∨ type_is_int kv.2 = true) :
    url_for router n none parts = Except.ok (router n (stringifiedParts parts)) := by
  simp [url_for, cleanParts_ok_of_valid parts h]

theorem url_for_ok_some (router : Router) (n : String) (q : List (String × String))
    (parts : List (String × PyVal))
    (h : ∀ kv ∈ parts, isinstance_str kv.2 = true ∨ type_is_int kv.2 = true)
    (hq : q ≠ []) :
    url_for router n (some q) parts
      = Except.ok ((router n (stringifiedParts parts)).with_query q) := by
  cases q with
  | nil => exact absurd rfl hq
  | cons a t => simp [url_for, cleanParts_ok_of_valid parts h]

theorem url_for_error_iff_clean (router : Router) (n : String)
    (q : Option (List (String × String))) (parts : List (String × PyVal)) :
    (∃ e, url_for router n q parts = Except.error e) ↔
    (∃ e, cleanParts parts = Except.error e) := by
  unfold url_for
  cases hc : cleanParts parts with
  | error e => simp
  | ok l =>
    cases q with
    | none => simp
    | some qs => by_cases hq : qs.isEmpty <;> simp [hq]

theorem url_for_error_elim (router : Router) (n : String)
    (q : Option (List (String × String))) (parts : List (String × PyVal)) (e : PyErr)
    (h : url_for router n q parts = Except.error e) :
    cleanParts parts = Except.error e := by
  unfold url_for at h
  cases hc : cleanParts parts with
  | error e2 =>
    rw [hc] at h
    simp at h
    rw [h]
  | ok l =>
    rw [hc] at h
    cases q with
    | none => simp at h
    | some qs => by_cases hq : qs.isEmpty <;> simp [hq] at h

/-! ### Helper lemmas: slash stripping -/

theorem lstrip_data (s : String) :
    (pyLstripSlash s).data = s.data.dropWhile (fun c => c == '/') := rfl

theorem rstrip_data (s : String) :
    (pyRstripSlash s).data
      = (s.data.reverse.dropWhile (fun c => c == '/')).reverse := rfl

theorem head?_dropWhile_not (p : Char → Bool) (l : List Char) (c : Char)
    (h : (l.dropWhile p).head? = some c) : p c = false := by
  induction l with
  | nil => simp [List.dropWhile] at h
  | cons a t ih =>
    rw [List.dropWhile_cons] at h
    by_cases hp : p a
    · rw [if_pos hp] at h
      exact ih h
    · rw [if_neg hp] at h
      simp at h
      rw [← h]
      simp only [Bool.not_eq_true] at hp
      exact hp

theorem pyLstripSlash_no_leading (s : String) :
    (pyLstripSlash s).data.head? ≠ some '/' := by
  intro h
  rw [lstrip_data] at h
  have hc := head?_dropWhile_not (fun c => c == '/') s.data '/' h
  simp at hc

theorem pyRstripSlash_no_trailing (s : String) :
    (pyRstripSlash s).data.getLast? ≠ some '/' := by
  intro h
  rw [rstrip_data, List.getLast?_reverse] at h
  have hc := head?_dropWhile_not (fun c => c == '/') s.data.reverse '/' h
  simp at hc

theorem pyRstripSlash_append_slash (root : String) :
    pyRstripSlash (root ++ "/") = pyRstripSlash root := by
  unfold pyRstripSlash
  congr 1
  rw [String.data_append]
  show ((root.data ++ ['/']).reverse.dropWhile (fun c => c == '/')).reverse = _
  rw [List.reverse_append]
  simp [List.dropWhile_cons]

theorem pyLstripSlash_slash_append (path : String) :
    pyLstripSlash ("/" ++ path) = pyLstripSlash path := by
  unfold pyLstripSlash
  congr 1

theorem joinStatic_root_slash (root path : String) :
    joinStatic (root ++ "/") path = joinStatic root path := by
  unfold joinStatic
  rw [pyRstripSlash_append_slash]

theorem joinStatic_slash_path (root path : String) :
    joinStatic root ("/" ++ path) = joinStatic root path := by
  unfold joinStatic
  rw [pyLstripSlash_slash_append]

/-! ### Concrete data used by the witnesses -/

/-- A concrete router used by the witnesses. -/
def demoRouter : Router := fun _ _ => Url.mk "/items/3" none

/-- A concrete world used by the purity witness. -/
def demoWorld : World := World.mk (App.mk (some "/static") none) demoRouter []

/-! ### The claims -/

/-- C1: for every call to url_for in which each keyword-argument value is
a str or an int, the parameter map passed to the router has exactly the
same keys as the keyword arguments, and each value is the string form of
the original value. -/
theorem claim_C1_url_for_stringifies_parts (router : Router) (routeName : String)
    (parts : List (String × PyVal))
    (h : ∀ kv ∈ parts, isinstance_str kv.2 = true ∨ type_is_int kv.2 = true) :
    url_for router routeName none parts
      = Except.ok (router routeName (stringifiedParts parts)) ∧
    (stringifiedParts parts).map Prod.fst = parts.map Prod.fst ∧
    ∀ kv ∈ parts, (kv.1, PyVal.str (pyStrOf kv.2) true) ∈ stringifiedParts parts := by
  refine ⟨url_for_ok_none router routeName parts h, ?_, ?_⟩
  · simp [stringifiedParts]
  · intro kv hkv
    exact List.mem_map.mpr ⟨kv, hkv, rfl⟩

/-- Witness for C1 at a concrete call with an int and a str argument. -/
theorem claim_C1_witness :
    url_for demoRouter "item-details" none [("id", PyVal.int 3), ("nm", PyVal.str "x" true)]
      = Except.ok (demoRouter "item-details"
          (stringifiedParts [("id", PyVal.int 3), ("nm", PyVal.str "x" true)])) ∧
    (stringifiedParts [("id", PyVal.int 3), ("nm", PyVal.str "x" true)]).map Prod.fst
      = [("id", PyVal.int 3), ("nm", PyVal.str "x" true)].map Prod.fst ∧
    ∀ kv ∈ [("id", PyVal.int 3), ("nm", PyVal.str "x" true)],
      (kv.1, PyVal.str (pyStrOf kv.2) true)
        ∈ stringifiedParts [("id", PyVal.int 3), ("nm", PyVal.str "x" true)] :=
  claim_C1_url_for_stringifies_parts demoRouter "item-details"
    [("id", PyVal.int 3), ("nm", PyVal.str "x" true)] (by decide)

/-- C2: url_for raises a TypeError if and only if at least one
keyword-argument value (other than query_) is neither a str (including
str subclasses) nor a value whose type is exactly int; when it raises,
no URL is produced. -/
theorem claim_C2_typeError_iff_invalid (router : Router) (routeName : String)
    (query_ : Option (List (String × String))) (parts : List (String × PyVal)) :
    ((∃ msg, url_for router routeName query_ parts
        = Except.error (PyErr.typeError msg)) ↔
      (∃ kv ∈ parts, isinstance_str kv.2 = false ∧ type_is_int kv.2 = false)) ∧
    (∀ e, url_for router routeName query_ parts = Except.error e →
      ∀ u, url_for router routeName query_ parts ≠ Except.ok u) := by
  constructor
  · constructor
    · rintro ⟨msg, hmsg⟩
      exact (cleanParts_error_iff parts).mp
        ⟨_, url_for_error_elim router routeName query_ parts _ hmsg⟩
    · intro hbad
      have herr : ∃ e, url_for router routeName query_ parts = Except.error e :=
        (url_for_error_iff_clean router routeName query_ parts).mpr
          ((cleanParts_error_iff parts).mpr hbad)
      rcases herr with ⟨e, he⟩
      rcases cleanParts_error_typeError parts e
        (url_for_error_elim router routeName query_ parts e he) with ⟨msg, rfl⟩
      exact ⟨msg, he⟩
  · intro e he u hu
    rw [he] at hu
    cases hu

/-- C3: a keyword-argument value that is a bool (True or False) is
rejected with a TypeError, even though bool is an int subtype. -/
theorem claim_C3_bool_rejected (router : Router) (routeName : String)
    (query_ : Option (List (String × String))) (parts : List (String × PyVal))
    (k : String) (b : Bool) (hmem : (k, PyVal.bool b) ∈ parts) :
    (∃ msg, url_for router routeName query_ parts
      = Except.error (PyErr.typeError msg)) ∧
    cleanVal k (PyVal.bool b)
      = Except.error (PyErr.typeError (typeErrorMsg k (PyVal.bool b))) ∧
    type_is_int (PyVal.bool b) = false := by
  refine ⟨?_, rfl, rfl⟩
  have hbad : ∃ kv ∈ parts, isinstance_str kv.2 = false ∧ type_is_int kv.2 = false :=
    ⟨(k, PyVal.bool b), hmem, rfl, rfl⟩
  have herr : ∃ e, url_for router routeName query_ parts = Except.error e :=
    (url_for_error_iff_clean router routeName query_ parts).mpr
      ((cleanParts_error_iff parts).mpr hbad)
  rcases herr with ⟨e, he⟩
  rcases cleanParts_error_typeError parts e
    (url_for_error_elim router routeName query_ parts e he) with ⟨msg, rfl⟩
  exact ⟨msg, he⟩

/-- Witness for C3 at a concrete call with a boolean argument. -/
theorem claim_C3_witness :
    (∃ msg, url_for demoRouter "r" none [("flag", PyVal.bool true)]
      = Except.error (PyErr.typeError msg)) ∧
    cleanVal "flag" (PyVal.bool true)
      = Except.error (PyErr.typeError (typeErrorMsg "flag" (PyVal.bool true))) ∧
    type_is_int (PyVal.bool true) = false :=
  claim_C3_bool_rejected demoRouter "r" none [("flag", PyVal.bool true)]
    "flag" true (by decide)

/-- C4: supplying a (non-empty, hence truthy) query_ mapping returns the
route-resolved URL with that mapping attached as its query string. -/
theorem claim_C4_query_appended (router : Router) (routeName : String)
    (q : List (String × String)) (parts : List (String × PyVal))
    (h : ∀ kv ∈ parts, isinstance_str kv.2 = true ∨ type_is_int kv.2 = true)
    (hq : q ≠ []) :
    url_for router routeName (some q) parts
      = Except.ok ((router routeName (stringifiedParts parts)).with_query q) :=
  url_for_ok_some router routeName q parts h hq

/-- Witness for C4 at a concrete call with a query mapping. -/
theorem claim_C4_witness :
    url_for demoRouter "item-details" (some [("active", "true")]) [("id", PyVal.int 3)]
      = Except.ok ((demoRouter "item-details"
          (stringifiedParts [("id", PyVal.int 3)])).with_query [("active", "true")]) :=
  claim_C4_query_appended demoRouter "item-details" [("active", "true")]
    [("id", PyVal.int 3)] (by decide) (by decide)

/-- C5: for every configured static root string and every asset path
string, the string returned by static_url has exactly one slash at the
join point: the stripped root never ends in a slash, the stripped path
never starts with one, and extra trailing or leading slashes in the
inputs do not change the result. -/
theorem claim_C5_single_slash_join (root path : String) (legacy : Option String) :
    static_url (App.mk (some root) legacy) path
      = StaticResult.ok (pyRstripSlash root ++ "/" ++ pyLstripSlash path) false ∧
    (pyRstripSlash root).data.getLast? ≠ some '/' ∧
    (pyLstripSlash path).data.head? ≠ some '/' ∧
    joinStatic (root ++ "/") path = joinStatic root path ∧
    joinStatic root ("/" ++ path) = joinStatic root path :=
  ⟨rfl, pyRstripSlash_no_trailing root, pyLstripSlash_no_leading path,
    joinStatic_root_slash root path, joinStatic_slash_path root path⟩

/-- C6: when the app defines neither the static_root_key entry nor the
legacy static_root_url entry, static_url raises a RuntimeError and
returns no URL. -/
theorem claim_C6_missing_root_error (path : String) :
    static_url (App.mk none none) path
      = StaticResult.runtimeError staticRootMissingMsg ∧
    ∀ u d, static_url (App.mk none none) path ≠ StaticResult.ok u d := by
  refine ⟨rfl, ?_⟩
  intro u d h
  cases h

/-- C7: when the static_root_key entry is absent but the legacy
static_root_url entry is present, static_url uses the legacy value as the
root, emits a DeprecationWarning, and returns the joined URL instead of
raising. -/
theorem claim_C7_legacy_fallback (root path : String) (router : Router)
    (warnings : List String) :
    static_url (App.mk none (some root)) path
      = StaticResult.ok (joinStatic root path) true ∧
    static_urlRun (World.mk (App.mk none (some root)) router warnings) path
      = (StaticResult.ok (joinStatic root path) true,
         World.mk (App.mk none (some root)) router (warnings ++ [deprecationMsg])) :=
  ⟨rfl, rfl⟩

/-- C8: url_for and static_url are side-effect-free apart from raising:
neither modifies the app, the router, or any configuration entry, and two
runs over worlds with the same app and router give equal results. -/
theorem claim_C8_side_effect_free (w1 w2 : World) (routeName : String)
    (query_ : Option (List (String × String))) (parts : List (String × PyVal))
    (path : String) (happ : w1.app = w2.app) (hrouter : w1.router = w2.router) :
    (url_forRun w1 routeName query_ parts).2 = w1 ∧
    (static_urlRun w1 path).2.app = w1.app ∧
    (static_urlRun w1 path).2.router = w1.router ∧
    (url_forRun w1 routeName query_ parts).1
      = (url_forRun w2 routeName query_ parts).1 ∧
    (static_urlRun w1 path).1 = (static_urlRun w2 path).1 := by
  obtain ⟨app1, r1, ws1⟩ := w1
  obtain ⟨app2, r2, ws2⟩ := w2
  have happ2 : app1 = app2 := happ
  have hr2 : r1 = r2 := hrouter
  subst happ2
  subst hr2
  obtain ⟨k, u⟩ := app1
  refine ⟨rfl, ?_, ?_, rfl, ?_⟩ <;> (cases k <;> cases u <;> rfl)

/-- Witness for C8 at a concrete world. -/
theorem claim_C8_witness :
    (url_forRun demoWorld "r" none []).2 = demoWorld ∧
    (static_urlRun demoWorld "a.css").2.app = demoWorld.app ∧
    (static_urlRun demoWorld "a.css").2.router = demoWorld.router ∧
    (url_forRun demoWorld "r" none []).1 = (url_forRun demoWorld "r" none []).1 ∧
    (static_urlRun demoWorld "a.css").1 = (static_urlRun demoWorld "a.css").1 :=
  claim_C8_side_effect_free demoWorld demoWorld "r" none [] "a.css" rfl rfl

/-- C9: an empty query_ mapping is falsy in Python, so url_for treats it
exactly like an omitted query_: the returned URL is the route-resolved
URL with no query string attached. -/
theorem claim_C9_empty_query_ignored (router : Router) (routeName : String)
    (parts : List (String × PyVal)) :
    url_for router routeName (some []) parts
      = url_for router routeName none parts := by
  unfold url_for
  cases cleanParts parts <;> simp

/-- C10: a keyword-argument value whose type is a proper subclass of str
is accepted, and the value stored in the parameter map is a plain str
equal to it (the subclass is not preserved). -/
theorem claim_C10_str_subclass (k s : String) (parts : List (String × PyVal))
    (h : ∀ kv ∈ parts, isinstance_str kv.2 = true ∨ type_is_int kv.2 = true)
    (hmem : (k, PyVal.str s false) ∈ parts) :
    cleanVal k (PyVal.str s false) = Except.ok (PyVal.str s true) ∧
    cleanParts parts = Except.ok (stringifiedParts parts) ∧
    (k, PyVal.str s true) ∈ stringifiedParts parts := by
  refine ⟨rfl, cleanParts_ok_of_valid parts h, ?_⟩
  exact List.mem_map.mpr ⟨(k, PyVal.str s false), hmem, rfl⟩

/-- Witness for C10 at a concrete call with a str-subclass argument. -/
theorem claim_C10_witness :
    cleanVal "k" (PyVal.str "abc" false) = Except.ok (PyVal.str "abc" true) ∧
    cleanParts [("k", PyVal.str "abc" false)]
      = Except.ok (stringifiedParts [("k", PyVal.str "abc" false)]) ∧
    ("k", PyVal.str "abc" true) ∈ stringifiedParts [("k", PyVal.str "abc" false)] :=
  claim_C10_str_subclass "k" "abc" [("k", PyVal.str "abc" false)] (by decide) (by decide)
